import Mathlib

/-!
Verification development for the `dblock` distributed-lock library.

The library offers a lock lifecycle (obtain / refresh / release / TTL query)
over two interchangeable backends:

* `redislock`: a key-value backend driven by four atomic Lua scripts
  (`luaObtain`, `luaRefresh`, `luaRelease`, `luaPTTL`).  The stored value is
  the concatenation `token ++ metadata`; ownership is decided by comparing
  either the full value or its token-length byte range.
* `rdblock`: a relational backend that claims a row in a `shedlock` table via
  INSERT with a fallback UPDATE, and builds every SQL statement by textual
  substitution of single-quoted values into a template.

Strings are modelled as `List Char` (`Str`), timestamps as `Nat` (key-value
side, milliseconds) or `Int` (relational side, abstract time units).  Since
`lock_name` is the table's primary key, the relational table restricted to one
key is a single optional row; every statement's WHERE clause names exactly one
`lock_name`, so each operation acts on that one slot.

The backend-agnostic acquisition loop is modelled with an explicit clock: an
attempt is instantaneous, a sleep advances the clock by the backoff, and the
context's deadline fires during a sleep that would cross it.
-/

namespace DBLock

abbrev Str := List Char

/-- `dblock.ErrNotObtained` and `dblock.ErrLockNotHeld`. -/
inductive LockError where
  | notObtained
  | lockNotHeld
deriving DecidableEq

/-! ## Key-value backend (`redislock`) -/

/-- State of one key in the key-value store: stored value and absolute expiry
time, if the key was ever set.  A key whose expiry has passed behaves as
absent. -/
abbrev KVState := Option (Str × Nat)

/-- `redis.call("get", KEYS[1])` at time `now`: the stored value if the key is
live, otherwise nil. -/
def kvGet (st : KVState) (now : Nat) : Option Str :=
  match st with
  | some (v, e) => if now < e then some v else none
  | none => none

/-- `redis.call("getrange", KEYS[1], 0, offset-1)`: with `offset ≥ 1` the first
`offset` bytes; with `offset = 0` the end index is `-1`, which denotes the
whole string. -/
def getrangeTo (s : Str) (offset : Nat) : Str :=
  if offset = 0 then s else s.take offset

/-- Lua `string.sub(s, 1, offset)`: the first `offset` bytes (clamped). -/
def luaSubTo (s : Str) (offset : Nat) : Str := s.take offset

/-- The `luaObtain` script: `SET key value NX PX ttl`; on failure, compare the
stored value's first `offset` bytes with the first `offset` bytes of the new
value and, on a match, overwrite value and TTL.  A fall-through (no `return`)
yields nil, which `Client.obtain` reports as not obtained (`false`). -/
def luaObtain (st : KVState) (now : Nat) (value : Str) (offset : Nat) (ttl : Nat) :
    KVState × Bool :=
  match kvGet st now with
  | none => (some (value, now + ttl), true)
  | some stored =>
    if getrangeTo stored offset = luaSubTo value offset then
      (some (value, now + ttl), true)
    else
      (st, false)

/-- The `luaRefresh` script: if the stored value equals `value` exactly, run
`PEXPIRE key ttl` (returns 1); otherwise return 0. -/
def luaRefresh (st : KVState) (now : Nat) (value : Str) (ttl : Nat) : KVState × Int :=
  match kvGet st now with
  | some stored =>
    if stored = value then (some (stored, now + ttl), 1) else (st, 0)
  | none => (st, 0)

/-- The `luaRelease` script: if the stored value equals `value` exactly, run
`DEL key` (returns 1); otherwise return 0. -/
def luaRelease (st : KVState) (now : Nat) (value : Str) : KVState × Int :=
  match kvGet st now with
  | some stored =>
    if stored = value then (none, 1) else (st, 0)
  | none => (st, 0)

/-- The `luaPTTL` script: if the stored value equals `value` exactly, return
the remaining TTL in milliseconds, else return the sentinel `-3`. -/
def luaPTTL (st : KVState) (now : Nat) (value : Str) : Int :=
  match st with
  | some (v, e) =>
    if now < e then (if v = value then (e : Int) - (now : Int) else -3) else -3
  | none => -3

/-- `redislock.Lock.Refresh`: status 1 means success, anything else maps to
`ErrNotObtained`. -/
def kvRefresh (st : KVState) (now : Nat) (value : Str) (ttl : Nat) :
    KVState × Option LockError :=
  let r := luaRefresh st now value ttl
  (r.1, if r.2 = 1 then none else some .notObtained)

/-- `redislock.Lock.Release`: result 1 means success, anything else maps to
`ErrLockNotHeld`. -/
def kvRelease (st : KVState) (now : Nat) (value : Str) : KVState × Option LockError :=
  let r := luaRelease st now value
  (r.1, if r.2 = 1 then none else some .lockNotHeld)

/-- `redislock.Lock.TTL`: a positive script result is the remaining duration,
anything else (including the `-3` sentinel) is reported as 0. -/
def kvTTL (st : KVState) (now : Nat) (value : Str) : Int :=
  let num := luaPTTL st now value
  if num > 0 then num else 0

namespace Redislock

/-- `redislock.Lock`: the handle stores the concatenated value and the token
length chosen at obtain time. -/
structure Lock where
  value : Str
  tokenLen : Nat
deriving DecidableEq

/-- `Lock.Token`: the first `tokenLen` bytes of the stored value. -/
def Lock.Token (l : Lock) : Str := l.value.take l.tokenLen

/-- `Lock.Metadata`: the bytes of the stored value after the token. -/
def Lock.Metadata (l : Lock) : Str := l.value.drop l.tokenLen

end Redislock

/-! ## Relational backend (`rdblock`) -/

/-- One row of the `shedlock` table, without its primary key `lock_name`
(the model fixes one key and tracks that key's slot). -/
structure Row where
  lockUntil : Int
  lockedAt : Int
  lockedBy : Str
  tokenValue : Str
  metaValue : Str
  lockedPid : Str
deriving DecidableEq

/-- `shedLock.insert`: the INSERT succeeds iff no row for the key exists
(`lock_name` is the primary key, so any existing row — live or expired —
causes a uniqueness violation); every error is swallowed into `false`. -/
def shedInsert (slot : Option Row) (r : Row) : Option Row × Bool :=
  match slot with
  | none => (some r, true)
  | some _ => (slot, false)

/-- `shedLock.update`: `UPDATE ... SET <all fields of r> WHERE lock_name = key
AND lock_until <= {Until}` — the comparison is against `r.lockUntil`, the NEW
lease end, as in the source template.  Returns the rows-affected count. -/
def shedUpdate (slot : Option Row) (r : Row) : Option Row × Nat :=
  match slot with
  | some old =>
    if old.lockUntil ≤ r.lockUntil then (some r, 1) else (slot, 0)
  | none => (slot, 0)

/-- `Client.obtain` (relational): try the INSERT; on failure fall back to the
UPDATE and report success iff it affected a row. -/
def rdObtain (slot : Option Row) (r : Row) : Option Row × Bool :=
  let ins := shedInsert slot r
  if ins.2 then (ins.1, true)
  else
    let upd := shedUpdate slot r
    (upd.1, upd.2 > 0)

/-- `shedLock.extend`: `UPDATE ... SET lock_until = {Until} WHERE lock_name =
key AND token_value = {Token}`; rows-affected count. -/
def shedExtend (slot : Option Row) (token : Str) (newUntil : Int) : Option Row × Nat :=
  match slot with
  | some r =>
    if r.tokenValue = token then (some { r with lockUntil := newUntil }, 1) else (slot, 0)
  | none => (slot, 0)

/-- `shedLock.unlock`: set `lock_until` to one second in the past, restricted
to `WHERE lock_name = key AND token_value = {Token}`; rows-affected count.
The row (and its token) is kept, not deleted. -/
def shedUnlock (slot : Option Row) (token : Str) (now : Int) : Option Row × Nat :=
  match slot with
  | some r =>
    if r.tokenValue = token then (some { r with lockUntil := now - 1 }, 1) else (slot, 0)
  | none => (slot, 0)

/-- `shedLock.query`: `SELECT ... WHERE lock_name = key AND token_value =
{Token}`; `none` models `sql.ErrNoRows`. -/
def shedQuery (slot : Option Row) (token : Str) : Option Row :=
  match slot with
  | some r => if r.tokenValue = token then some r else none
  | none => none

/-- `rdblock.Lock.Refresh`: success iff the extend UPDATE affected a row, else
`ErrNotObtained`. -/
def rdRefresh (slot : Option Row) (token : Str) (newUntil : Int) :
    Option Row × Option LockError :=
  let r := shedExtend slot token newUntil
  (r.1, if r.2 > 0 then none else some .notObtained)

/-- `rdblock.Lock.Release`: success iff the unlock UPDATE affected a row, else
`ErrLockNotHeld`. -/
def rdRelease (slot : Option Row) (token : Str) (now : Int) :
    Option Row × Option LockError :=
  let r := shedUnlock slot token now
  (r.1, if r.2 > 0 then none else some .lockNotHeld)

/-- `rdblock.Lock.TTL`: query by key and token; absent row yields 0, a found
row yields `lock_until - now` when positive, else 0. -/
def rdTTL (slot : Option Row) (token : Str) (now : Int) : Int :=
  match shedQuery slot token with
  | some r => if r.lockUntil - now > 0 then r.lockUntil - now else 0
  | none => 0

namespace Rdblock

/-- `rdblock.Lock`: the handle stores key, token and metadata directly. -/
structure Lock where
  key : Str
  token : Str
  metadata : Str
deriving DecidableEq

/-- `Lock.Token` returns the stored token field. -/
def Lock.Token (l : Lock) : Str := l.token

/-- `Lock.Metadata` returns the stored metadata field. -/
def Lock.Metadata (l : Lock) : Str := l.metadata

end Rdblock

/-! ## Retry strategy and acquisition loop -/

/-- Modelled from the spec: the library's `NoRetry` retry strategy (its body
is not among the sources; §4.4 of the spec describes it as "no retry — a
single attempt, immediate failure if busy", and the loop stops on a backoff
below one time unit).  Its `NextBackoff` therefore yields a stop signal, a
duration below 1, on every call. -/
def NoRetryBackoff : Nat → Int := fun _ => 0

/-- `Options.GetRetryStrategy`: the configured strategy, or `NoRetry()` when
none was set.  A strategy is modelled by its `NextBackoff` sequence. -/
def GetRetryStrategyBackoff (custom : Option (Nat → Int)) : Nat → Int :=
  match custom with
  | some r => r
  | none => NoRetryBackoff

/-- Result of an acquisition loop run, carrying the clock value at return
time: lock obtained, `ErrNotObtained`, the context's cancellation error, or a
backend error surfaced as-is. -/
inductive Outcome where
  | ok (t : Int)
  | notObtained (t : Int)
  | ctxErr (t : Int)
  | backendErr (t : Int)
deriving DecidableEq

/-- The clock value at which an outcome was returned. -/
def Outcome.time : Outcome → Int
  | ok t => t
  | notObtained t => t
  | ctxErr t => t
  | backendErr t => t

/-- The `for` loop shared by both `Client.Obtain` implementations, with an
explicit clock.  `attempt t` is the backend's `obtain` at time `t` (`none`
models a backend error, which is surfaced immediately), `backoff i` the retry
strategy's `i`-th `NextBackoff`.  A backoff below 1 aborts with
`ErrNotObtained`; otherwise the loop sleeps on the ticker, and if the deadline
falls within the sleep the `ctx.Done()` arm of the `select` fires and
`ctx.Err()` is returned.  The second component counts backend attempts. -/
def obtainLoop (attempt : Int → Option Bool) (backoff : Nat → Int) (deadline : Int) :
    Nat → Int → Nat → Outcome × Nat
  | i, t, n =>
    match attempt t with
    | none => (.backendErr t, n + 1)
    | some true => (.ok t, n + 1)
    | some false =>
      if backoff i < 1 then (.notObtained t, n + 1)
      else if deadline ≤ t + backoff i then (.ctxErr deadline, n + 1)
      else obtainLoop attempt backoff deadline (i + 1) (t + backoff i) (n + 1)
termination_by i t n => (deadline - t).toNat
decreasing_by
  rename_i h1 h2
  omega

/-- The effective deadline installed by `Client.Obtain` before the loop:
`start + ttl` when the caller's context carries no deadline, the caller's own
deadline otherwise. -/
def effDeadline (callerDeadline : Option Int) (start ttl : Int) : Int :=
  match callerDeadline with
  | none => start + ttl
  | some d => d

/-- `Client.Obtain`: install the deadline, then run the loop from time
`start`. -/
def clientObtain (attempt : Int → Option Bool) (backoff : Nat → Int)
    (callerDeadline : Option Int) (ttl start : Int) : Outcome × Nat :=
  obtainLoop attempt backoff (effDeadline callerDeadline start ttl) 0 start 0

/-! ## Relational statement construction -/

/-- The single-quote character. -/
def quoteChar : Char := Char.ofNat 39

/-- The backslash escape character. -/
def escapeChar : Char := Char.ofNat 92

/-- `rdblock.SingleQuote`: wrap `s` in single quotes, escaping only the
single-quote character itself (nothing else, in particular not the
backslash). -/
def SingleQuote (s : Str) : Str :=
  quoteChar :: s.foldr (fun r acc => (if r = quoteChar then [escapeChar, r] else [r]) ++ acc)
    [quoteChar]

/-- Scanner for `replaceAll`, structurally recursive on a fuel argument so
that it evaluates inside the kernel.  With `fuel ≥ s.length` the fuel never
runs out, since each step drops at least one character of `s`. -/
def replaceAllGo (pat rep : Str) : Nat → Str → Str
  | _, [] => []
  | 0, s => s
  | fuel + 1, c :: rest =>
    if pat ≠ [] ∧ pat.isPrefixOf (c :: rest) then
      rep ++ replaceAllGo pat rep fuel ((c :: rest).drop pat.length)
    else
      c :: replaceAllGo pat rep fuel rest

/-- Go's `strings.ReplaceAll`: replace every non-overlapping leftmost
occurrence of `pat` by `rep`.  The sources only call it with non-empty
patterns; an empty pattern leaves `s` unchanged here. -/
def replaceAll (pat rep s : Str) : Str :=
  replaceAllGo pat rep s.length s

/-- The INSERT template of `shedLock.insert`. -/
def insertTemplate : Str :=
  ("INSERT INTO {Table} (lock_name, lock_until, locked_at, locked_by, token_value, meta_value, locked_pid) " ++
    "VALUES ({Name}, {Until}, {At}, {By}, {Token}, {Meta}, {LockedPid})").toList

/-- The UPDATE template of `shedLock.update` (the obtain fallback).  Note
that the placeholder `{Until}` appears both in SET and in the WHERE guard. -/
def updateTemplate : Str :=
  ("UPDATE {Table} SET lock_until = {Until}, " ++
    "locked_at = {At}, locked_by = {By}, " ++
    "token_value = {Token}, meta_value = {Meta}, locked_pid = {LockedPid} " ++
    "WHERE lock_name = {Name} AND lock_until <= {Until}").toList

/-- The UPDATE template of `shedLock.extend` (refresh). -/
def extendTemplate : Str :=
  ("UPDATE {Table} SET lock_until = {Until} " ++
    "WHERE lock_name = {Name} AND token_value = {Token}").toList

/-- The SELECT template of `shedLock.query`. -/
def queryTemplate : Str :=
  ("select lock_until, locked_at, locked_by, token_value, meta_value, locked_pid from {Table} " ++
    "WHERE lock_name = {Name} AND token_value = {Token}").toList

/-- `shedLock.insert` statement text: substitutions in source order, every
value spliced into the statement via `SingleQuote`. -/
def shedInsertStatement (tableV nameV untilV atV byV tokenV metaV pidV : Str) : Str :=
  replaceAll "{LockedPid}".toList (SingleQuote pidV)
    (replaceAll "{Meta}".toList (SingleQuote metaV)
      (replaceAll "{Token}".toList (SingleQuote tokenV)
        (replaceAll "{By}".toList (SingleQuote byV)
          (replaceAll "{At}".toList (SingleQuote atV)
            (replaceAll "{Until}".toList (SingleQuote untilV)
              (replaceAll "{Name}".toList (SingleQuote nameV)
                (replaceAll "{Table}".toList tableV insertTemplate)))))))

/-- `shedLock.extend` statement text. -/
def shedExtendStatement (tableV nameV untilV tokenV : Str) : Str :=
  replaceAll "{Token}".toList (SingleQuote tokenV)
    (replaceAll "{Until}".toList (SingleQuote untilV)
      (replaceAll "{Name}".toList (SingleQuote nameV)
        (replaceAll "{Table}".toList tableV extendTemplate)))

/-! ## Theorems -/

/-- Whatever the attempts, backoffs and start time, the acquisition loop never
returns at a clock value beyond the deadline (every sleep that would cross the
deadline is cut short by the context firing). -/
theorem obtainLoop_time_le (attempt : Int → Option Bool) (backoff : Nat → Int)
    (deadline : Int) (i : Nat) (t : Int) (n : Nat) (ht : t ≤ deadline) :
    ((obtainLoop attempt backoff deadline i t n).1).time ≤ deadline := by
  unfold obtainLoop
  cases hA : attempt t with
  | none => simp [Outcome.time, ht]
  | some b =>
    cases b with
    | true => simp [Outcome.time, ht]
    | false =>
      by_cases h1 : backoff i < 1
      · simp [h1, Outcome.time, ht]
      · by_cases h2 : deadline ≤ t + backoff i
        · simp [h1, h2, Outcome.time]
        · simp only [h1, h2, if_false]
          exact obtainLoop_time_le attempt backoff deadline (i + 1) (t + backoff i) (n + 1)
            (by omega)
termination_by (deadline - t).toNat
decreasing_by omega

/-- C1: The claim says the relational obtain fallback UPDATE is restricted to
rows whose `lock_until` is at or before the current time, so that a racing
loser's UPDATE affects zero rows and its obtain fails.  The source guard is
`lock_until <= {Until}` where `{Until}` is the NEW lease end (now + ttl), not
the current time: at time 1, with the winner's row live until 100, a loser
whose new lease would run to 101 has its UPDATE affect one row, and its obtain
reports success. -/
theorem rd_update_claims_live_row :
    (1 : Int) < 100 ∧
    shedUpdate
        (some { lockUntil := 100, lockedAt := 0, lockedBy := [], tokenValue := ['a'],
                metaValue := [], lockedPid := [] })
        { lockUntil := 101, lockedAt := 1, lockedBy := [], tokenValue := ['b'],
          metaValue := [], lockedPid := [] }
      = (some { lockUntil := 101, lockedAt := 1, lockedBy := [], tokenValue := ['b'],
                metaValue := [], lockedPid := [] }, 1) ∧
    (rdObtain
        (some { lockUntil := 100, lockedAt := 0, lockedBy := [], tokenValue := ['a'],
                metaValue := [], lockedPid := [] })
        { lockUntil := 101, lockedAt := 1, lockedBy := [], tokenValue := ['b'],
          metaValue := [], lockedPid := [] }).2 = true := by
  decide

/-- C2: The claim says that, with each backend operation taken as one atomic
step, no two obtains with distinct tokens both succeed while the other's lease
is live.  The relational backend violates it: after token `x` obtains at time
0 with lease until 50, a second obtain by token `y` at time 2 (well before 50)
also succeeds, because the fallback UPDATE merely requires the stored
`lock_until` not to exceed the new one. -/
theorem rd_obtain_breaks_mutual_exclusion :
    rdObtain none
        { lockUntil := 50, lockedAt := 0, lockedBy := [], tokenValue := ['x'],
          metaValue := [], lockedPid := [] }
      = (some { lockUntil := 50, lockedAt := 0, lockedBy := [], tokenValue := ['x'],
                metaValue := [], lockedPid := [] }, true) ∧
    rdObtain
        (some { lockUntil := 50, lockedAt := 0, lockedBy := [], tokenValue := ['x'],
                metaValue := [], lockedPid := [] })
        { lockUntil := 52, lockedAt := 2, lockedBy := [], tokenValue := ['y'],
          metaValue := [], lockedPid := [] }
      = (some { lockUntil := 52, lockedAt := 2, lockedBy := [], tokenValue := ['y'],
                metaValue := [], lockedPid := [] }, true) ∧
    (2 : Int) < 50 ∧ (['x'] : Str) ≠ ['y'] := by
  decide

/-- C3: The key-value obtain script: an absent key is set to
`token ++ metadata` with the TTL and the call succeeds; a present key whose
stored value agrees with the token on its first `token.length` bytes is
overwritten (new TTL, new metadata) and the call succeeds; otherwise the
script falls through, the attempt reports false, and the acquisition loop
under the default strategy returns `ErrNotObtained`. -/
theorem kv_obtain_semantics (st : KVState) (now ttl : Nat) (token meta : Str)
    (hne : token ≠ []) :
    (kvGet st now = none →
      luaObtain st now (token ++ meta) token.length ttl
        = (some (token ++ meta, now + ttl), true)) ∧
    ∀ stored, kvGet st now = some stored →
      (stored.take token.length = token →
        luaObtain st now (token ++ meta) token.length ttl
          = (some (token ++ meta, now + ttl), true)) ∧
      (stored.take token.length ≠ token →
        luaObtain st now (token ++ meta) token.length ttl = (st, false) ∧
        ∀ (dl t : Int) (i n : Nat),
          obtainLoop (fun _ => some (luaObtain st now (token ++ meta) token.length ttl).2)
              (GetRetryStrategyBackoff none) dl i t n
            = (.notObtained t, n + 1)) := by
  have hlen : token.length ≠ 0 := by
    have := List.length_pos.mpr hne
    omega
  have htake : (token ++ meta).take token.length = token := List.take_left token meta
  constructor
  · intro h
    simp [luaObtain, h]
  · intro stored hst
    constructor
    · intro hpre
      simp [luaObtain, hst, getrangeTo, luaSubTo, hlen, htake, hpre]
    · intro hpre
      have hfalse : luaObtain st now (token ++ meta) token.length ttl = (st, false) := by
        simp [luaObtain, hst, getrangeTo, luaSubTo, hlen, htake, hpre]
      refine ⟨hfalse, ?_⟩
      intro dl t i n
      unfold obtainLoop
      simp [hfalse, GetRetryStrategyBackoff, NoRetryBackoff]

/-- Witness for C3: obtaining a fresh key with token `a` and metadata `b`
stores the concatenation with the TTL and succeeds. -/
theorem kv_obtain_semantics_witness :
    luaObtain none 0 ([('a' : Char)] ++ [('b' : Char)]) [('a' : Char)].length 5
      = (some ([('a' : Char)] ++ [('b' : Char)], 0 + 5), true) :=
  (kv_obtain_semantics none 0 5 ['a'] ['b'] (by decide)).1 rfl

set_option maxRecDepth 40000 in
/-- C4: The claim says caller-controlled fields reach the database only as
bound parameters, so two runs differing only in those values issue identical
query strings.  The source instead splices single-quoted values into the
statement text: the refresh UPDATE and the obtain INSERT built for token `a`
differ from those built for token `b`. -/
theorem sql_statement_text_depends_on_caller_values :
    shedExtendStatement "t".toList "k".toList "u".toList "a".toList ≠
      shedExtendStatement "t".toList "k".toList "u".toList "b".toList ∧
    shedInsertStatement "t".toList "k".toList "u".toList "w".toList "h".toList "a".toList
        "m".toList "p".toList ≠
      shedInsertStatement "t".toList "k".toList "u".toList "w".toList "h".toList "b".toList
        "m".toList "p".toList := by
  decide

/-- C5: Refresh, Release and TTL/query with a token that does not match the
stored owner report `ErrNotObtained`, `ErrLockNotHeld` and a zero TTL
respectively, on both backends, even though a record exists under the other
token, and the stored record is unchanged. -/
theorem mismatched_token_checks (t1 m1 t2 m2 : Str) (e now ttl : Nat)
    (hlen : t1.length = t2.length) (hne : t1 ≠ t2) (hlive : now < e)
    (row : Row) (hrow : row.tokenValue = t1) (newUntil rdNow : Int) :
    kvRefresh (some (t1 ++ m1, e)) now (t2 ++ m2) ttl
      = (some (t1 ++ m1, e), some .notObtained) ∧
    kvRelease (some (t1 ++ m1, e)) now (t2 ++ m2)
      = (some (t1 ++ m1, e), some .lockNotHeld) ∧
    kvTTL (some (t1 ++ m1, e)) now (t2 ++ m2) = 0 ∧
    rdRefresh (some row) t2 newUntil = (some row, some .notObtained) ∧
    rdRelease (some row) t2 rdNow = (some row, some .lockNotHeld) ∧
    rdTTL (some row) t2 rdNow = 0 := by
  have hvne : t1 ++ m1 ≠ t2 ++ m2 := by
    intro hc
    exact hne (List.append_inj hc hlen).1
  have hrne : ¬ row.tokenValue = t2 := by
    rw [hrow]
    exact hne
  refine ⟨?_, ?_, ?_, ?_, ?_, ?_⟩
  · simp [kvRefresh, luaRefresh, kvGet, hlive, hvne]
  · simp [kvRelease, luaRelease, kvGet, hlive, hvne]
  · simp [kvTTL, luaPTTL, hlive, hvne]
  · simp [rdRefresh, shedExtend, hrne]
  · simp [rdRelease, shedUnlock, hrne]
  · simp [rdTTL, shedQuery, hrne]

/-- Witness for C5: stored owner token `a`, caller token `b`; the key-value
refresh leaves the record unchanged and reports not obtained. -/
theorem mismatched_token_checks_witness :
    kvRefresh (some (([('a' : Char)] : Str) ++ [], 10)) 0 (([('b' : Char)] : Str) ++ []) 5
      = (some (([('a' : Char)] : Str) ++ [], 10), some .notObtained) :=
  (mismatched_token_checks ['a'] [] ['b'] [] 10 0 5 rfl (by decide) (by decide)
    ⟨9, 0, [], ['a'], [], []⟩ rfl 20 0).1

/-- C6: If the backend attempt fails, the strategy yields a backoff of at
least one unit, and the deadline falls within the coming sleep, the loop
returns the context's cancellation error at the deadline, never
`ErrNotObtained`. -/
theorem cancellation_during_sleep (attempt : Int → Option Bool) (backoff : Nat → Int)
    (deadline t : Int) (i n : Nat) (hfail : attempt t = some false)
    (hb : 1 ≤ backoff i) (hfire : deadline ≤ t + backoff i) :
    obtainLoop attempt backoff deadline i t n = (.ctxErr deadline, n + 1) ∧
    ∀ s, obtainLoop attempt backoff deadline i t n ≠ (.notObtained s, n + 1) := by
  have hres : obtainLoop attempt backoff deadline i t n = (.ctxErr deadline, n + 1) := by
    unfold obtainLoop
    simp [hfail, hfire, show ¬ backoff i < 1 by omega]
  refine ⟨hres, ?_⟩
  intro s hc
  rw [hres] at hc
  simp at hc

/-- Witness for C6: a failing attempt with backoff 5 and deadline 3 yields the
cancellation error at the deadline. -/
theorem cancellation_during_sleep_witness :
    obtainLoop (fun _ => some false) (fun _ => 5) 3 0 0 0 = (.ctxErr 3, 0 + 1) :=
  (cancellation_during_sleep (fun _ => some false) (fun _ => 5) 3 0 0 0 rfl
    (by decide) (by decide)).1

/-- C7: With no caller deadline, `Obtain` installs the deadline `start + ttl`
before the loop and returns no later than `ttl` after its start; with a caller
deadline at or after the start, it never outlives that deadline. -/
theorem obtain_deadline_respected (attempt : Int → Option Bool) (backoff : Nat → Int)
    (ttl start : Int) (httl : 0 ≤ ttl) :
    effDeadline none start ttl = start + ttl ∧
    ((clientObtain attempt backoff none ttl start).1).time ≤ start + ttl ∧
    ∀ d : Int, start ≤ d →
      ((clientObtain attempt backoff (some d) ttl start).1).time ≤ d := by
  refine ⟨rfl, ?_, ?_⟩
  · unfold clientObtain effDeadline
    exact obtainLoop_time_le attempt backoff (start + ttl) 0 start 0 (by omega)
  · intro d hd
    unfold clientObtain effDeadline
    exact obtainLoop_time_le attempt backoff d 0 start 0 hd

/-- Witness for C7: with always-busy attempts, unit backoff and ttl 2 from
start 0, the loop returns at the installed deadline 2 ≤ 0 + 2. -/
theorem obtain_deadline_respected_witness :
    ((clientObtain (fun _ => some false) (fun _ => 1) none 2 0).1).time ≤ 0 + 2 :=
  (obtain_deadline_respected (fun _ => some false) (fun _ => 1) 2 0 (by decide)).2.1

/-- C8: With no configured strategy `GetRetryStrategy` yields `NoRetry`, whose
backoff 0 is below one time unit, so the loop makes exactly one backend
attempt and, when busy, returns `ErrNotObtained` at the same clock value
(no sleep); in general any backoff below 1 aborts the loop the same way. -/
theorem default_retry_single_attempt (attempt : Int → Option Bool) (deadline t : Int)
    (i n : Nat) (hfail : attempt t = some false) :
    GetRetryStrategyBackoff none = NoRetryBackoff ∧
    obtainLoop attempt (GetRetryStrategyBackoff none) deadline i t n
      = (.notObtained t, n + 1) ∧
    ∀ backoff : Nat → Int, backoff i < 1 →
      obtainLoop attempt backoff deadline i t n = (.notObtained t, n + 1) := by
  refine ⟨rfl, ?_, ?_⟩
  · unfold obtainLoop
    simp [hfail, GetRetryStrategyBackoff, NoRetryBackoff]
  · intro backoff hb
    unfold obtainLoop
    simp [hfail, hb]

/-- Witness for C8: a busy backend under the default strategy: one attempt,
not obtained, at the unchanged clock value 0. -/
theorem default_retry_single_attempt_witness :
    obtainLoop (fun _ => some false) (GetRetryStrategyBackoff none) 9 0 0 0
      = (.notObtained 0, 0 + 1) :=
  (default_retry_single_attempt (fun _ => some false) 9 0 0 0 rfl).2.1

/-- C9: For every token and metadata (empty strings included), the handle
built by obtain returns them unchanged: on the key-value side `Token` and
`Metadata` split the stored concatenation at the token length and their
concatenation is the stored value; on the relational side the fields are
stored and returned directly. -/
theorem metadata_token_roundtrip (token meta key : Str) :
    Redislock.Lock.Token ⟨token ++ meta, token.length⟩ = token ∧
    Redislock.Lock.Metadata ⟨token ++ meta, token.length⟩ = meta ∧
    Redislock.Lock.Token ⟨token ++ meta, token.length⟩ ++
        Redislock.Lock.Metadata ⟨token ++ meta, token.length⟩ = token ++ meta ∧
    Rdblock.Lock.Token ⟨key, token, meta⟩ = token ∧
    Rdblock.Lock.Metadata ⟨key, token, meta⟩ = meta := by
  refine ⟨List.take_left token meta, List.drop_left token meta, ?_, rfl, rfl⟩
  rw [Redislock.Lock.Token, Redislock.Lock.Metadata]
  exact List.take_append_drop token.length (token ++ meta)

/-- C10: Relational release only moves `lock_until` into the past and keeps
the row and its token, so a second release by the same handle still affects
one row and succeeds; the key-value release deletes the key, so a second
release reports `ErrLockNotHeld`. -/
theorem second_release_divergence (row : Row) (t : Str) (hrow : row.tokenValue = t)
    (now1 now2 : Int) (v : Str) (e kvNow : Nat) (hlive : kvNow < e) :
    rdRelease (some row) t now1 = (some { row with lockUntil := now1 - 1 }, none) ∧
    ({ row with lockUntil := now1 - 1 } : Row).tokenValue = t ∧
    rdRelease (some { row with lockUntil := now1 - 1 }) t now2
      = (some { row with lockUntil := now2 - 1 }, none) ∧
    kvRelease (some (v, e)) kvNow v = (none, none) ∧
    kvRelease none kvNow v = (none, some .lockNotHeld) := by
  refine ⟨?_, hrow, ?_, ?_, ?_⟩
  · simp [rdRelease, shedUnlock, hrow]
  · simp [rdRelease, shedUnlock, hrow]
  · simp [kvRelease, luaRelease, kvGet, hlive]
  · simp [kvRelease, luaRelease, kvGet]

/-- Witness for C10: the concrete double release on both backends. -/
theorem second_release_divergence_witness :
    rdRelease (some ({ lockUntil := 9, lockedAt := 0, lockedBy := [],
                       tokenValue := ['a'], metaValue := [], lockedPid := [] } : Row)) ['a'] 20
      = (some { lockUntil := 19, lockedAt := 0, lockedBy := [],
                tokenValue := ['a'], metaValue := [], lockedPid := [] }, none) :=
  (second_release_divergence
    { lockUntil := 9, lockedAt := 0, lockedBy := [], tokenValue := ['a'],
      metaValue := [], lockedPid := [] }
    ['a'] rfl 20 30 ['a'] 10 0 (by decide)).1

end DBLock
